import Mathlib

/-!
# Backend selection in webview_go

The repository consists of four cgo binding units under `src/backend`.  Each
unit is a Go file whose whole content is
* two `// +build` constraint lines (an operating-system gate and a backend tag),
* a cgo preamble with `#cgo` directives (compiler, linker and pkg-config
  settings) and one `#include`.

The text of the four files is embedded verbatim, line by line.  What the files
mean is fixed by the Go toolchain, so the development also embeds the relevant
rules of `go/build`: how `// +build` lines are found and parsed, when a tag is
satisfied for a build context, how implicit constraints are read off a file
name, and how `#cgo` lines are split into a verb and its arguments.

Scope of the embedding:
* only the `// +build` form of constraints is embedded; a file carrying a
  `//go:build` line is reported as outside the fragment (`none`);
* the `SRCDIR` variable in a flag is kept as written (the toolchain replaces it
  by the package directory when it runs the compiler);
* "selected" means that the build-constraint checks of a file succeed.  All
  four units import "C", so they are compiled only when cgo is enabled; that
  switch is part of `importDir`, not of the constraint check.
-/

namespace WebviewGo

/-! ## The four binding units -/

/-- The source files of package `backend`, named after the files. -/
inductive BindingUnit
  | backend_cocoa_webkit
  | backend_gtk3_webkit401
  | backend_gtk4_webkit600
  | backend_win32_edge
  deriving DecidableEq, Repr, Fintype

namespace BindingUnit

/-- Every file of the package, in directory (alphabetical) order. -/
def all : List BindingUnit :=
  [backend_cocoa_webkit, backend_gtk3_webkit401, backend_gtk4_webkit600, backend_win32_edge]

/-- File name of a unit. -/
def fileName : BindingUnit → String
  | backend_cocoa_webkit => "backend_cocoa_webkit.go"
  | backend_gtk3_webkit401 => "backend_gtk3_webkit401.go"
  | backend_gtk4_webkit600 => "backend_gtk4_webkit600.go"
  | backend_win32_edge => "backend_win32_edge.go"

/-- The text of each file, one string per line. -/
def source : BindingUnit → List String
  | backend_cocoa_webkit =>
    [ "// +build darwin",
      "// +build webview.backend.cocoa_webkit",
      "",
      "package backend",
      "",
      "/*",
      "#cgo CFLAGS: -I$\x7bSRCDIR\x7d/../libs/webview/include",
      "#cgo CXXFLAGS: -I$\x7bSRCDIR\x7d/../libs/webview/include -DWEBVIEW_STATIC -DWEBVIEW_COCOA -std=c++11",
      "#cgo LDFLAGS: -framework WebKit -ldl",
      "",
      "#include \"webview.h\"",
      "*/",
      "import \"C\"",
      "" ]
  | backend_gtk3_webkit401 =>
    [ "// +build linux openbsd freebsd netbsd",
      "// +build webview.backend.gtk3_webkitgtk401",
      "",
      "package backend",
      "",
      "/*",
      "#cgo CFLAGS: -I$\x7bSRCDIR\x7d/../libs/webview/include",
      "#cgo CXXFLAGS: -I$\x7bSRCDIR\x7d/../libs/webview/include -DWEBVIEW_STATIC -DWEBVIEW_GTK -std=c++11",
      "#cgo LDFLAGS: -ldl",
      "#cgo pkg-config: gtk+-3.0 webkit2gtk-4.1",
      "",
      "#include \"webview.h\"",
      "*/",
      "import \"C\"",
      "" ]
  | backend_gtk4_webkit600 =>
    [ "// +build linux openbsd freebsd netbsd",
      "// +build webview.backend.gtk4_webkitgtk600",
      "",
      "package backend",
      "",
      "/*",
      "#cgo CFLAGS: -I$\x7bSRCDIR\x7d/../libs/webview/include",
      "#cgo CXXFLAGS: -I$\x7bSRCDIR\x7d/../libs/webview/include -DWEBVIEW_STATIC -DWEBVIEW_GTK -std=c++11",
      "#cgo LDFLAGS: -ldl",
      "#cgo pkg-config: gtk4 webkitgtk-6.0",
      "",
      "#include \"webview.h\"",
      "*/",
      "import \"C\"",
      "" ]
  | backend_win32_edge =>
    [ "// +build windows",
      "// +build webview.backend.win32_edge",
      "",
      "package backend",
      "",
      "/*",
      "#cgo CFLAGS: -I$\x7bSRCDIR\x7d/../libs/webview/include",
      "#cgo CXXFLAGS: -I$\x7bSRCDIR\x7d/../libs/webview/include -I$\x7bSRCDIR\x7d/../libs/mswebview2/include -DWEBVIEW_STATIC -DWEBVIEW_EDGE -std=c++14",
      "#cgo LDFLAGS: -static -ladvapi32 -lole32 -lshell32 -lshlwapi -luser32 -lversion",
      "",
      "#include \"webview.h\"",
      "*/",
      "import \"C\"" ]

end BindingUnit

/-! ## Text helpers (Go `strings` package, on character lists) -/

/-- White space as `unicode.IsSpace` sees it in the Latin-1 range. -/
def isSpace (c : Char) : Bool :=
  c == ' ' || (9 ≤ c.toNat && c.toNat ≤ 13) || c.toNat == 0x85 || c.toNat == 0xA0

/-- `strings.TrimSpace`. -/
def trimSpace (s : List Char) : List Char :=
  ((s.dropWhile isSpace).reverse.dropWhile isSpace).reverse

/-- Remainder of `s` after the leading text `p`, when `s` starts with `p`
(`strings.CutPrefix`). -/
def dropStart : List Char → List Char → Option (List Char)
  | [], s => some s
  | _ :: _, [] => none
  | p :: ps, c :: cs => if p == c then dropStart ps cs else none

/-- Worker of `fields`: `cur` is the current word, reversed. -/
def fieldsAux : List Char → List Char → List (List Char)
  | [], cur => if cur.isEmpty then [] else [cur.reverse]
  | c :: cs, cur =>
    if isSpace c then
      (if cur.isEmpty then fieldsAux cs [] else cur.reverse :: fieldsAux cs [])
    else fieldsAux cs (c :: cur)

/-- `strings.Fields`: the maximal runs of non-space characters. -/
def fields (s : List Char) : List (List Char) := fieldsAux s []

/-- `strings.Split(s, sep)` for a one-character separator. -/
def splitAt (sep : Char) : List Char → List (List Char)
  | [] => [[]]
  | c :: cs =>
    if c == sep then [] :: splitAt sep cs
    else
      match splitAt sep cs with
      | [] => [[c]]
      | w :: ws => (c :: w) :: ws

/-- `strings.Cut(s, sep)` for a one-character separator: text before and after
the first separator, or `none` when there is none. -/
def cutAt (sep : Char) : List Char → Option (List Char × List Char)
  | [] => none
  | c :: cs =>
    if c == sep then some ([], cs)
    else (cutAt sep cs).map fun p => (c :: p.1, p.2)

/-! ## Build contexts and tags (`go/build`) -/

/-- A build context: the fields of `build.Context` that decide which tags are
satisfied.  `GOOS` is the target operating system and `BuildTags` the tags
given with `-tags`. -/
structure Context where
  GOARCH : String
  GOOS : String
  Compiler : String
  CgoEnabled : Bool
  BuildTags : List String
  ToolTags : List String
  ReleaseTags : List String
  deriving Repr

/-- Operating systems for which the tag `unix` is satisfied. -/
def unixOS : List String :=
  ["aix", "android", "darwin", "dragonfly", "freebsd", "hurd", "illumos", "ios",
   "linux", "netbsd", "openbsd", "solaris"]

/-- Whether the tag `name` is satisfied in `ctxt` (`Context.matchTag`): the
special tags first (cgo, the target OS and architecture, the compiler, the
OS aliases android/linux, illumos/solaris, ios/darwin, and `unix`), then the
tags of the `-tags` flag, the tool tags and the release tags. -/
def matchTag (ctxt : Context) (name : String) : Bool :=
  if ctxt.CgoEnabled && name == "cgo" then true
  else if name == ctxt.GOOS || name == ctxt.GOARCH || name == ctxt.Compiler then true
  else if ctxt.GOOS == "android" && name == "linux" then true
  else if ctxt.GOOS == "illumos" && name == "solaris" then true
  else if ctxt.GOOS == "ios" && name == "darwin" then true
  else if name == "unix" && unixOS.contains ctxt.GOOS then true
  else
    let name := if name == "boringcrypto" then "goexperiment.boringcrypto" else name
    ctxt.BuildTags.contains name || ctxt.ToolTags.contains name
      || ctxt.ReleaseTags.contains name

/-! ## Constraint expressions (`go/build/constraint`) -/

/-- A build-constraint expression. -/
inductive Constraint
  | tag (name : String)
  | not (x : Constraint)
  | and (x y : Constraint)
  | or (x y : Constraint)
  deriving DecidableEq, Repr

/-- Value of a constraint when `ok` tells which tags are satisfied (`Expr.Eval`). -/
def Constraint.eval (ok : String → Bool) : Constraint → Bool
  | .tag name => ok name
  | .not x => !(x.eval ok)
  | .and x y => x.eval ok && y.eval ok
  | .or x y => x.eval ok || y.eval ok

/-- Tags are non-empty words of letters, digits, `_` and `.` (`isValidTag`;
letters and digits are taken in the ASCII range). -/
def isValidTag (word : List Char) : Bool :=
  !word.isEmpty && word.all fun c => c.isAlphanum || c == '_' || c == '.'

/-- Text after `// +build` when the line is a `+build` line (`splitPlusBuild`). -/
def splitPlusBuild (line : List Char) : Option (List Char) :=
  match dropStart "//".toList line with
  | none => none
  | some rest =>
    match dropStart "+build".toList (trimSpace rest) with
    | none => none
    | some after =>
      let trim := trimSpace after
      if after.length == trim.length && !after.isEmpty then none else some trim

/-- One comma-separated term of a `+build` clause: a tag, possibly negated;
anything malformed becomes the tag `ignore`. -/
def parseLit (lit : List Char) : Constraint :=
  match lit with
  | ['!'] => .tag "ignore"
  | '!' :: '!' :: _ => .tag "ignore"
  | '!' :: rest => .not (if isValidTag rest then .tag (String.mk rest) else .tag "ignore")
  | _ => if isValidTag lit then .tag (String.mk lit) else .tag "ignore"

/-- Left-nested combination of a non-empty list of constraints. -/
def combine (op : Constraint → Constraint → Constraint) : List Constraint → Option Constraint
  | [] => none
  | z :: zs => some (zs.foldl op z)

/-- A clause `a,b,c` is the conjunction of its terms. -/
def parseClause (clause : List Char) : Constraint :=
  (combine .and ((splitAt ',' clause).map parseLit)).getD (.tag "ignore")

/-- The text of a `+build` line is the disjunction of its space-separated
clauses (`parsePlusBuildExpr`). -/
def parsePlusBuildExpr (text : List Char) : Constraint :=
  (combine .or ((fields text).map parseClause)).getD (.tag "ignore")

/-! ## Which files take part in a build (`go/build`) -/

/-- Number of leading lines in which `+build` lines are honoured: up to the
last blank line that comes before the first line that is neither blank nor a
`//` comment (`parseFileHeader`).  `i` is the index of the current line, `e`
the end found so far. -/
def headerEnd : List String → Nat → Nat → Nat
  | [], _, e => e
  | l :: ls, i, e =>
    let t := trimSpace l.toList
    if t.isEmpty then headerEnd ls (i + 1) (i + 1)
    else if (dropStart "//".toList t).isSome then headerEnd ls (i + 1) e
    else e

/-- The header of a file: the lines that may hold `+build` constraints. -/
def headerLines (lines : List String) : List String :=
  lines.take (headerEnd lines 0 0)

/-- Whether a line is a `//go:build` line (`isGoBuildComment`). -/
def isGoBuildComment (line : String) : Bool :=
  match dropStart "//go:build".toList (trimSpace line.toList) with
  | none => false
  | some rest => rest.isEmpty || (trimSpace rest).length != rest.length

/-- The constraints of a file, one per `+build` line of its header; `none`
when the file has a `//go:build` line, which is outside the embedded fragment. -/
def plusBuildConstraints (lines : List String) : Option (List Constraint) :=
  if lines.any isGoBuildComment then none
  else
    some ((headerLines lines).filterMap fun line =>
      (splitPlusBuild (trimSpace line.toList)).map parsePlusBuildExpr)

/-- Whether the constraints in the text of a file allow it in the build
(`shouldBuild`): every `+build` line must be satisfied. -/
def shouldBuild (ctxt : Context) (lines : List String) : Option Bool :=
  (plusBuildConstraints lines).map fun cs => cs.all fun c => c.eval (matchTag ctxt)

/-- Operating systems recognised in file names. -/
def knownOS : List String :=
  ["aix", "android", "darwin", "dragonfly", "freebsd", "hurd", "illumos", "ios", "js",
   "linux", "nacl", "netbsd", "openbsd", "plan9", "solaris", "wasip1", "windows", "zos"]

/-- Architectures recognised in file names. -/
def knownArch : List String :=
  ["386", "amd64", "amd64p32", "arm", "armbe", "arm64", "arm64be", "loong64", "mips",
   "mipsle", "mips64", "mips64le", "mips64p32", "mips64p32le", "ppc", "ppc64", "ppc64le",
   "riscv", "riscv64", "s390", "s390x", "sparc", "sparc64", "wasm"]

/-- The tags a file name implies (`goodOSArchFile`): for `name_$(GOOS).*`,
`name_$(GOARCH).*` and `name_$(GOOS)_$(GOARCH).*`, with an optional `_test`,
the operating system and architecture named; nothing for any other name. -/
def fileNameTags (fileName : String) : List String :=
  let name := ((cutAt '.' fileName.toList).map Prod.fst).getD fileName.toList
  match cutAt '_' name with
  | none => []
  | some (_, rest) =>
    let l := (splitAt '_' ('_' :: rest)).map String.mk
    let l := if l.getLast? == some "test" then l.dropLast else l
    match l.reverse with
    | last :: prev :: _ =>
      if knownOS.contains prev && knownArch.contains last then [last, prev]
      else if knownOS.contains last || knownArch.contains last then [last]
      else []
    | [last] => if knownOS.contains last || knownArch.contains last then [last] else []
    | [] => []

/-- Whether the file name allows the file in the build. -/
def goodOSArchFile (ctxt : Context) (fileName : String) : Bool :=
  (fileNameTags fileName).all (matchTag ctxt)

/-- Whether a unit passes the build-constraint checks for `ctxt` (`matchFile`):
its name and its `+build` lines both allow it. -/
def matchFile (ctxt : Context) (u : BindingUnit) : Bool :=
  goodOSArchFile ctxt u.fileName && shouldBuild ctxt u.source == some true

/-- The units selected for a build, in directory order. -/
def selectedUnits (ctxt : Context) : List BindingUnit :=
  BindingUnit.all.filter (matchFile ctxt)

/-! ## cgo directives (`go/build`, `saveCgo`) -/

/-- A `#cgo` line split at its colon: the conditions and the verb before it,
the raw argument text after it. -/
structure CgoDirective where
  cond : List String
  verb : String
  argstr : List Char
  deriving DecidableEq, Repr

/-- The body of the block comment that directly precedes `import "C"` and the
lines after its closing `*/`. -/
def untilClose : List String → Option (List String × List String)
  | [] => none
  | l :: ls =>
    if trimSpace l.toList == "*/".toList then some ([], ls)
    else (untilClose ls).map fun p => (l :: p.1, p.2)

/-- The cgo preamble of a file: the lines of the block comment attached to
`import "C"` (comment delimiters on lines of their own, as in the units). -/
def cgoPreamble : List String → Option (List String)
  | [] => none
  | l :: ls =>
    if trimSpace l.toList == "/*".toList then
      match untilClose ls with
      | some (body, next :: _) =>
        if trimSpace next.toList == "import \"C\"".toList then some body else cgoPreamble ls
      | _ => cgoPreamble ls
    else cgoPreamble ls

/-- Worker of `splitQuoted`: `escaped`, `quoted` and `quote` are the state of
the scanner, `cur` the current argument, reversed. -/
def splitQuotedAux :
    List Char → Bool → Bool → Option Char → List Char → Option (List (List Char))
  | [], escaped, quoted, quote, cur =>
    if quote.isSome || escaped then none
    else some (if quoted || !cur.isEmpty then [cur.reverse] else [])
  | c :: cs, escaped, quoted, quote, cur =>
    if escaped then splitQuotedAux cs false quoted quote (c :: cur)
    else if c == Char.ofNat 92 then splitQuotedAux cs true quoted quote cur
    else
      match quote with
      | some q =>
        if c == q then splitQuotedAux cs false quoted none cur
        else splitQuotedAux cs false quoted quote (c :: cur)
      | none =>
        if c == Char.ofNat 34 || c == Char.ofNat 39 then
          splitQuotedAux cs false true (some c) cur
        else if isSpace c then
          if quoted || !cur.isEmpty then
            (splitQuotedAux cs false false none []).map fun r => cur.reverse :: r
          else splitQuotedAux cs false quoted none cur
        else splitQuotedAux cs false quoted none (c :: cur)

/-- Arguments of a `#cgo` line (`splitQuoted`): split at white space, with
quotes and backslash escapes; `none` for an unclosed quote or escape. -/
def splitQuoted (s : List Char) : Option (List String) :=
  (splitQuotedAux s false false none []).map fun r => r.map String.mk

/-- A line of the preamble as a `#cgo` directive: `some none` when the line
is not a directive, `none` when it is an invalid one (no colon, no verb). -/
def parseCgoLine (line : String) : Option (Option CgoDirective) :=
  let t := trimSpace line.toList
  match dropStart "#cgo".toList t with
  | none => some none
  | some rest =>
    match rest with
    | [] => some none
    | c :: _ =>
      if !(c == ' ' || c == Char.ofNat 9) then some none
      else
        let f := (fields t).map String.mk
        if f.length == 3 && (f.get? 1 == some "nocallback" || f.get? 1 == some "noescape") then
          some none
        else
          match cutAt ':' (trimSpace rest) with
          | none => none
          | some (head, argstr) =>
            let w := (fields head).map String.mk
            match w.getLast? with
            | none => none
            | some verb => some (some ⟨w.dropLast, verb, argstr⟩)

/-- Whether a condition of a `#cgo` line holds (`matchAuto`); a condition in
the `//go:build` syntax is outside the embedded fragment (`none`). -/
def matchAuto (ctxt : Context) (text : String) : Option Bool :=
  if text.toList.any fun c => c == '&' || c == '|' || c == '(' || c == ')' then none
  else some ((parsePlusBuildExpr text.toList).eval (matchTag ctxt))

/-- The verbs a `#cgo` line may carry. -/
def cgoVerbs : List String :=
  ["CFLAGS", "CPPFLAGS", "CXXFLAGS", "FFLAGS", "LDFLAGS", "pkg-config"]

/-- Verb and arguments of a directive whose conditions hold. -/
def directiveArgs (d : CgoDirective) : Option (Option (String × List String)) :=
  match splitQuoted d.argstr with
  | none => none
  | some args => if cgoVerbs.contains d.verb then some (some (d.verb, args)) else none

/-- Effect of one directive in `ctxt`: `some none` when its conditions
exclude it, its verb and arguments otherwise; `none` for an error. -/
def applyDirective (ctxt : Context) (d : CgoDirective) :
    Option (Option (String × List String)) :=
  if d.cond.isEmpty then directiveArgs d
  else
    match d.cond.mapM (matchAuto ctxt) with
    | none => none
    | some oks => if oks.any id then directiveArgs d else some none

/-- Effect of one preamble line in `ctxt`. -/
def saveCgoLine (ctxt : Context) (line : String) : Option (Option (String × List String)) :=
  match parseCgoLine line with
  | none => none
  | some none => some none
  | some (some d) => applyDirective ctxt d

/-- The settings a unit contributes (`saveCgo`): verb and arguments of every
directive of its preamble, in order; `none` when a line is rejected. -/
def saveCgo (ctxt : Context) (u : BindingUnit) : Option (List (String × List String)) :=
  match cgoPreamble u.source with
  | none => some []
  | some body => (body.mapM (saveCgoLine ctxt)).map fun r => r.filterMap id

/-- The arguments a unit gives for one verb, e.g. its `LDFLAGS`. -/
def cgoFlags (ctxt : Context) (u : BindingUnit) (verb : String) : Option (List String) :=
  (saveCgo ctxt u).map fun ds => (ds.filter fun d => d.1 == verb).flatMap fun d => d.2

/-- The arguments the package gets for one verb: those of all selected units,
appended in directory order. -/
def packageFlags (ctxt : Context) (verb : String) : Option (List String) :=
  ((selectedUnits ctxt).mapM fun u => cgoFlags ctxt u verb).map List.flatten

/-- The headers a unit includes: what follows `#include` in its preamble. -/
def cgoIncludes (u : BindingUnit) : List String :=
  ((cgoPreamble u.source).getD []).filterMap fun line =>
    (dropStart "#include".toList (trimSpace line.toList)).map fun rest =>
      String.mk (trimSpace rest)

/-- Outcome of importing the package directory. -/
inductive ImportResult
  | NoGoError
  | ok (cgoFiles : List BindingUnit)
  deriving DecidableEq, Repr

/-- Importing package `backend` for `ctxt` (`Context.Import`): the selected
units are its cgo files when cgo is enabled and are ignored otherwise; a
package left without any Go file is rejected. -/
def importDir (ctxt : Context) : ImportResult :=
  let cgoFiles := if ctxt.CgoEnabled then selectedUnits ctxt else []
  if cgoFiles.isEmpty then .NoGoError else .ok cgoFiles

/-- Macros a list of compiler flags defines: `NAME` for each `-DNAME` or
`-DNAME=value`. -/
def definedMacros (flags : List String) : List String :=
  flags.filterMap fun f =>
    (dropStart "-D".toList f.toList).map fun rest =>
      String.mk (((cutAt '=' rest).map Prod.fst).getD rest)

/-! ## Vocabulary of the specification -/

/-- The selection tag the specification assigns to each backend variant. -/
def backendTag : BindingUnit → String
  | .backend_cocoa_webkit => "webview.backend.cocoa_webkit"
  | .backend_gtk3_webkit401 => "webview.backend.gtk3_webkitgtk401"
  | .backend_gtk4_webkit600 => "webview.backend.gtk4_webkitgtk600"
  | .backend_win32_edge => "webview.backend.win32_edge"

/-- The platform family the specification assigns to each backend variant. -/
def platformFamily : BindingUnit → List String
  | .backend_cocoa_webkit => ["darwin"]
  | .backend_gtk3_webkit401 => ["linux", "openbsd", "freebsd", "netbsd"]
  | .backend_gtk4_webkit600 => ["linux", "openbsd", "freebsd", "netbsd"]
  | .backend_win32_edge => ["windows"]

/-- The operating-system names that occur in the platform families. -/
def osNames : List String :=
  ["darwin", "linux", "openbsd", "freebsd", "netbsd", "windows"]

/-- Each operating-system name of the platform families is satisfied only as
the target OS itself: it does not hold through an alias of the target
(android for linux, ios for darwin) and is not given as an extra tag. -/
def osTermsFromTarget (ctxt : Context) : Bool :=
  osNames.all fun os => !matchTag ctxt os || ctxt.GOOS == os

/-- The OS gate of a unit: an OS name of its platform family is a satisfied
tag. -/
def osGate (ctxt : Context) (u : BindingUnit) : Bool :=
  (platformFamily u).any (matchTag ctxt)

/-- No two platform families have an OS name satisfied together: the OS gates
of units of different families never hold in the same build. -/
def gatesExclusive (ctxt : Context) : Bool :=
  BindingUnit.all.all fun u => BindingUnit.all.all fun v =>
    platformFamily u == platformFamily v || !(osGate ctxt u && osGate ctxt v)

/-- The Windows system libraries of the specification, as linker flags. -/
def windowsSystemLibs : List String :=
  ["-ladvapi32", "-lole32", "-lshell32", "-lshlwapi", "-luser32", "-lversion"]

/-- The macros that choose the backend inside the native header. -/
def backendMacros : List String :=
  ["WEBVIEW_COCOA", "WEBVIEW_GTK", "WEBVIEW_EDGE"]

/-- The backend macro the specification ties to a target OS. -/
def macroOfOS (os : String) : Option String :=
  if os == "darwin" then some "WEBVIEW_COCOA"
  else if ["linux", "openbsd", "freebsd", "netbsd"].contains os then some "WEBVIEW_GTK"
  else if os == "windows" then some "WEBVIEW_EDGE"
  else none

/-- The backend macros a unit defines in its `CXXFLAGS`. -/
def backendMacrosOf (ctxt : Context) (u : BindingUnit) : Option (List String) :=
  (cgoFlags ctxt u "CXXFLAGS").map fun cxx =>
    (definedMacros cxx).filter fun m => backendMacros.contains m

/-- The backend macro of each unit, as a table (`backendMacrosOf_value` checks it
against the CXXFLAGS of the files). -/
def unitMacro : BindingUnit → String
  | .backend_cocoa_webkit => "WEBVIEW_COCOA"
  | .backend_gtk3_webkit401 => "WEBVIEW_GTK"
  | .backend_gtk4_webkit600 => "WEBVIEW_GTK"
  | .backend_win32_edge => "WEBVIEW_EDGE"

/-- The include path of the bundled native library, as written in the units. -/
def webviewIncludeFlag : String := "-I$\x7bSRCDIR\x7d/../libs/webview/include"

/-- A build for the target OS `goos` with the extra tags `tags` (amd64, the gc
compiler, cgo enabled). -/
def buildFor (goos : String) (tags : List String) : Context :=
  ⟨"amd64", goos, "gc", true, tags, [], []⟩

/-! ## What the toolchain reads off the four files -/

theorem fileNameTags_fileName (u : BindingUnit) : fileNameTags u.fileName = [] := by
  cases u <;> decide

theorem plusBuildConstraints_cocoa :
    plusBuildConstraints BindingUnit.backend_cocoa_webkit.source =
      some [.tag "darwin", .tag "webview.backend.cocoa_webkit"] := by
  decide

theorem plusBuildConstraints_gtk3 :
    plusBuildConstraints BindingUnit.backend_gtk3_webkit401.source =
      some [.or (.or (.or (.tag "linux") (.tag "openbsd")) (.tag "freebsd")) (.tag "netbsd"),
            .tag "webview.backend.gtk3_webkitgtk401"] := by
  decide

theorem plusBuildConstraints_gtk4 :
    plusBuildConstraints BindingUnit.backend_gtk4_webkit600.source =
      some [.or (.or (.or (.tag "linux") (.tag "openbsd")) (.tag "freebsd")) (.tag "netbsd"),
            .tag "webview.backend.gtk4_webkitgtk600"] := by
  decide

theorem plusBuildConstraints_win32 :
    plusBuildConstraints BindingUnit.backend_win32_edge.source =
      some [.tag "windows", .tag "webview.backend.win32_edge"] := by
  decide

/-- A unit passes the constraint checks exactly when one OS name of its
family and its backend tag are both satisfied. -/
theorem matchFile_eq (ctxt : Context) (u : BindingUnit) :
    matchFile ctxt u =
      ((platformFamily u).any (matchTag ctxt) && matchTag ctxt (backendTag u)) := by
  cases u <;>
    simp [matchFile, goodOSArchFile, fileNameTags_fileName, shouldBuild,
      plusBuildConstraints_cocoa, plusBuildConstraints_gtk3, plusBuildConstraints_gtk4,
      plusBuildConstraints_win32, Constraint.eval, platformFamily, backendTag, Bool.or_assoc]

set_option maxRecDepth 100000

theorem saveCgo_cocoa (ctxt : Context) :
    saveCgo ctxt .backend_cocoa_webkit =
      some [("CFLAGS", [webviewIncludeFlag]),
            ("CXXFLAGS", [webviewIncludeFlag, "-DWEBVIEW_STATIC", "-DWEBVIEW_COCOA",
              "-std=c++11"]),
            ("LDFLAGS", ["-framework", "WebKit", "-ldl"])] := by
  rfl

theorem saveCgo_gtk3 (ctxt : Context) :
    saveCgo ctxt .backend_gtk3_webkit401 =
      some [("CFLAGS", [webviewIncludeFlag]),
            ("CXXFLAGS", [webviewIncludeFlag, "-DWEBVIEW_STATIC", "-DWEBVIEW_GTK",
              "-std=c++11"]),
            ("LDFLAGS", ["-ldl"]),
            ("pkg-config", ["gtk+-3.0", "webkit2gtk-4.1"])] := by
  rfl

theorem saveCgo_gtk4 (ctxt : Context) :
    saveCgo ctxt .backend_gtk4_webkit600 =
      some [("CFLAGS", [webviewIncludeFlag]),
            ("CXXFLAGS", [webviewIncludeFlag, "-DWEBVIEW_STATIC", "-DWEBVIEW_GTK",
              "-std=c++11"]),
            ("LDFLAGS", ["-ldl"]),
            ("pkg-config", ["gtk4", "webkitgtk-6.0"])] := by
  rfl

theorem saveCgo_win32 (ctxt : Context) :
    saveCgo ctxt .backend_win32_edge =
      some [("CFLAGS", [webviewIncludeFlag]),
            ("CXXFLAGS", [webviewIncludeFlag, "-I$\x7bSRCDIR\x7d/../libs/mswebview2/include",
              "-DWEBVIEW_STATIC", "-DWEBVIEW_EDGE", "-std=c++14"]),
            ("LDFLAGS", ["-static", "-ladvapi32", "-lole32", "-lshell32", "-lshlwapi",
              "-luser32", "-lversion"])] := by
  rfl

/-- The target OS is always a satisfied tag. -/
theorem matchTag_GOOS (ctxt : Context) : matchTag ctxt ctxt.GOOS = true := by
  simp [matchTag]

/-- Filtering the four files, one file at a time. -/
theorem filter_all (p : BindingUnit → Bool) :
    BindingUnit.all.filter p =
      (bif p .backend_cocoa_webkit then [.backend_cocoa_webkit] else []) ++
      ((bif p .backend_gtk3_webkit401 then [.backend_gtk3_webkit401] else []) ++
      ((bif p .backend_gtk4_webkit600 then [.backend_gtk4_webkit600] else []) ++
       (bif p .backend_win32_edge then [.backend_win32_edge] else []))) := by
  simp only [BindingUnit.all, List.filter]
  cases p .backend_cocoa_webkit <;> cases p .backend_gtk3_webkit401 <;>
    cases p .backend_gtk4_webkit600 <;> cases p .backend_win32_edge <;> rfl

/-- The selected units, spelled out over the four files: `d`, `g` and `w` say
whether an OS name of the Cocoa, GTK and Win32 family is satisfied. -/
theorem selectedUnits_eq (ctxt : Context) :
    selectedUnits ctxt =
      (bif matchTag ctxt "darwin" && matchTag ctxt "webview.backend.cocoa_webkit"
        then [.backend_cocoa_webkit] else []) ++
      ((bif (matchTag ctxt "linux" || (matchTag ctxt "openbsd" ||
            (matchTag ctxt "freebsd" || matchTag ctxt "netbsd")))
            && matchTag ctxt "webview.backend.gtk3_webkitgtk401"
        then [.backend_gtk3_webkit401] else []) ++
      ((bif (matchTag ctxt "linux" || (matchTag ctxt "openbsd" ||
            (matchTag ctxt "freebsd" || matchTag ctxt "netbsd")))
            && matchTag ctxt "webview.backend.gtk4_webkitgtk600"
        then [.backend_gtk4_webkit600] else []) ++
       (bif matchTag ctxt "windows" && matchTag ctxt "webview.backend.win32_edge"
        then [.backend_win32_edge] else []))) := by
  unfold selectedUnits
  rw [filter_all]
  simp only [matchFile_eq, platformFamily, backendTag, List.any_cons, List.any_nil,
    Bool.or_false]

/-- A target OS inside the family of a unit satisfies the OS gate of the unit. -/
theorem any_family_of_GOOS (ctxt : Context) (u : BindingUnit)
    (h : ctxt.GOOS ∈ platformFamily u) :
    (platformFamily u).any (matchTag ctxt) = true :=
  List.any_eq_true.mpr ⟨ctxt.GOOS, h, matchTag_GOOS ctxt⟩

theorem family_subset_osNames (u : BindingUnit) (os : String) (h : os ∈ platformFamily u) :
    os ∈ osNames := by
  cases u <;>
    simp only [platformFamily, List.mem_cons, List.mem_singleton, List.not_mem_nil,
      or_false] at h <;>
    simp only [osNames, List.mem_cons] <;> tauto

/-- What `osTermsFromTarget` says about each OS name. -/
theorem GOOS_eq_of_osTermsFromTarget (ctxt : Context) (h : osTermsFromTarget ctxt = true)
    (os : String) (hos : os ∈ osNames) (hm : matchTag ctxt os = true) : ctxt.GOOS = os := by
  have h1 := List.all_eq_true.mp h os hos
  simpa [hm] using h1

/-- With OS names satisfied by the target only, a selected unit has the target
OS in its family. -/
theorem GOOS_mem_family (ctxt : Context) (h : osTermsFromTarget ctxt = true)
    (u : BindingUnit) (hu : matchFile ctxt u = true) : ctxt.GOOS ∈ platformFamily u := by
  rw [matchFile_eq, Bool.and_eq_true] at hu
  obtain ⟨os, hos, hm⟩ := List.any_eq_true.mp hu.1
  have := GOOS_eq_of_osTermsFromTarget ctxt h os (family_subset_osNames u os hos) hm
  rw [this]
  exact hos

/-- A unit whose backend tag is not satisfied is not selected. -/
theorem matchFile_false_of_tag (ctxt : Context) (u : BindingUnit)
    (h : matchTag ctxt (backendTag u) = false) : matchFile ctxt u = false := by
  rw [matchFile_eq, h, Bool.and_false]

/-- When no unit is selected the package contributes no flags. -/
theorem packageFlags_of_nil (ctxt : Context) (verb : String) (h : selectedUnits ctxt = []) :
    packageFlags ctxt verb = some [] := by
  rw [packageFlags, h]
  rfl

/-- A build for an OS of the family of `u` in which the tag of `u` is the only
satisfied backend tag selects `u` and nothing else. -/
theorem selectedUnits_of_only_tag (ctxt : Context) (u : BindingUnit)
    (hos : ctxt.GOOS ∈ platformFamily u)
    (htag : matchTag ctxt (backendTag u) = true)
    (hothers : ∀ v, v ≠ u → matchTag ctxt (backendTag v) = false) :
    selectedUnits ctxt = [u] := by
  have hu : matchFile ctxt u = true := by
    rw [matchFile_eq, any_family_of_GOOS ctxt u hos, htag]
    rfl
  have hv : ∀ v, v ≠ u → matchFile ctxt v = false := fun v hne =>
    matchFile_false_of_tag ctxt v (hothers v hne)
  unfold selectedUnits
  rw [filter_all]
  cases u
  · rw [hu, hv _ (by decide), hv _ (by decide), hv _ (by decide)]
    rfl
  · rw [hu, hv _ (by decide), hv _ (by decide), hv _ (by decide)]
    rfl
  · rw [hu, hv _ (by decide), hv _ (by decide), hv _ (by decide)]
    rfl
  · rw [hu, hv _ (by decide), hv _ (by decide), hv _ (by decide)]
    rfl

/-- Every unit includes the one header `webview.h`. -/
theorem cgoIncludes_eq (u : BindingUnit) : cgoIncludes u = ["\"webview.h\""] := by
  cases u <;> decide

/-- The flags of the package when exactly one unit is selected. -/
theorem packageFlags_of_singleton (ctxt : Context) (verb : String) (u : BindingUnit)
    (h : selectedUnits ctxt = [u]) :
    packageFlags ctxt verb = (cgoFlags ctxt u verb).map fun l => l ++ [] := by
  rw [packageFlags, h]
  cases u <;> rfl

/-- Backend macro of each unit, and the macro of every OS of its family. -/
theorem backendMacrosOf_eq (ctxt : Context) (u : BindingUnit) :
    ∃ m, backendMacrosOf ctxt u = some [m] ∧ ∀ os ∈ platformFamily u, macroOfOS os = some m := by
  cases u
  · exact ⟨"WEBVIEW_COCOA", rfl, by decide⟩
  · exact ⟨"WEBVIEW_GTK", rfl, by decide⟩
  · exact ⟨"WEBVIEW_GTK", rfl, by decide⟩
  · exact ⟨"WEBVIEW_EDGE", rfl, by decide⟩

/-- Two units that share an OS name have the same platform family. -/
theorem platformFamily_eq_of_common (a b : BindingUnit) (os : String)
    (ha : os ∈ platformFamily a) (hb : os ∈ platformFamily b) :
    platformFamily a = platformFamily b := by
  cases a <;> cases b <;>
    first
      | rfl
      | (simp only [platformFamily, List.mem_cons, List.mem_singleton, List.not_mem_nil,
          or_false] at ha hb
         simp_all)

/-- Distinct units of one platform family are the two GTK units. -/
theorem gtk_pair_of_family_eq (u v : BindingUnit) (huv : u ≠ v)
    (hfam : platformFamily u = platformFamily v) :
    (u = .backend_gtk3_webkit401 ∧ v = .backend_gtk4_webkit600) ∨
      (u = .backend_gtk4_webkit600 ∧ v = .backend_gtk3_webkit401) := by
  revert huv hfam
  cases u <;> cases v <;> decide

/-- With OS names satisfied by the target only, two distinct selected units are
the two GTK units, on a target of the GTK family with both GTK tags satisfied. -/
theorem two_selected_are_gtk_pair (ctxt : Context)
    (hos : osTermsFromTarget ctxt = true) (u v : BindingUnit) (huv : u ≠ v)
    (hu : matchFile ctxt u = true) (hv : matchFile ctxt v = true) :
    ctxt.GOOS ∈ ["linux", "openbsd", "freebsd", "netbsd"] ∧
    matchTag ctxt "webview.backend.gtk3_webkitgtk401" = true ∧
    matchTag ctxt "webview.backend.gtk4_webkitgtk600" = true ∧
    ((u = .backend_gtk3_webkit401 ∧ v = .backend_gtk4_webkit600) ∨
      (u = .backend_gtk4_webkit600 ∧ v = .backend_gtk3_webkit401)) ∧
    platformFamily u = platformFamily v ∧
    selectedUnits ctxt = [.backend_gtk3_webkit401, .backend_gtk4_webkit600] ∧
    packageFlags ctxt "pkg-config" =
      some ["gtk+-3.0", "webkit2gtk-4.1", "gtk4", "webkitgtk-6.0"] := by
  have key : ∀ a b, matchFile ctxt a = true → matchFile ctxt b = true →
      platformFamily a = platformFamily b := fun a b ha hb =>
    platformFamily_eq_of_common a b ctxt.GOOS (GOOS_mem_family ctxt hos a ha)
      (GOOS_mem_family ctxt hos b hb)
  have hfam := key u v hu hv
  have hpair := gtk_pair_of_family_eq u v huv hfam
  have h34 : matchFile ctxt .backend_gtk3_webkit401 = true ∧
      matchFile ctxt .backend_gtk4_webkit600 = true := by
    rcases hpair with ⟨hu3, hv4⟩ | ⟨hu4, hv3⟩
    · rw [← hu3, ← hv4]
      exact ⟨hu, hv⟩
    · rw [← hu4, ← hv3]
      exact ⟨hv, hu⟩
  obtain ⟨h3, h4⟩ := h34
  have hc : matchFile ctxt .backend_cocoa_webkit = false := by
    cases hm : matchFile ctxt .backend_cocoa_webkit
    · rfl
    · exact absurd (key _ _ hm h3) (by decide)
  have hw : matchFile ctxt .backend_win32_edge = false := by
    cases hm : matchFile ctxt .backend_win32_edge
    · rfl
    · exact absurd (key _ _ hm h3) (by decide)
  have hsel : selectedUnits ctxt = [.backend_gtk3_webkit401, .backend_gtk4_webkit600] := by
    unfold selectedUnits
    rw [filter_all, hc, h3, h4, hw]
    rfl
  have t3 := h3
  have t4 := h4
  rw [matchFile_eq, Bool.and_eq_true] at t3 t4
  refine ⟨GOOS_mem_family ctxt hos _ h3, t3.2, t4.2, hpair, hfam, hsel, ?_⟩
  rw [packageFlags, hsel]
  rfl

/-- A selected unit has its OS gate and its backend tag satisfied. -/
theorem gate_and_tag_of_matchFile (ctxt : Context) (u : BindingUnit)
    (h : matchFile ctxt u = true) :
    osGate ctxt u = true ∧ matchTag ctxt (backendTag u) = true := by
  rw [matchFile_eq, Bool.and_eq_true] at h
  exact h

/-- With exclusive gates, units selected together are of one platform family. -/
theorem family_eq_of_exclusive (ctxt : Context) (h : gatesExclusive ctxt = true)
    (u v : BindingUnit) (hu : matchFile ctxt u = true) (hv : matchFile ctxt v = true) :
    platformFamily u = platformFamily v := by
  have hmem : ∀ w : BindingUnit, w ∈ BindingUnit.all := fun w => by cases w <;> decide
  have h1 := List.all_eq_true.mp (List.all_eq_true.mp h u (hmem u)) v (hmem v)
  rw [(gate_and_tag_of_matchFile ctxt u hu).1, (gate_and_tag_of_matchFile ctxt v hv).1] at h1
  simpa using h1

/-- Units of one platform family define the same backend macro. -/
theorem backendMacrosOf_eq_of_family (ctxt : Context) (u v : BindingUnit)
    (hu : osGate ctxt u = true) (hfam : platformFamily u = platformFamily v) :
    backendMacrosOf ctxt u = backendMacrosOf ctxt v := by
  obtain ⟨os, hos, _⟩ := List.any_eq_true.mp hu
  obtain ⟨m, hm, hmf⟩ := backendMacrosOf_eq ctxt u
  obtain ⟨n, hn, hnf⟩ := backendMacrosOf_eq ctxt v
  have e1 := hmf os hos
  have e2 := hnf os (hfam ▸ hos)
  rw [e1] at e2
  rw [hm, hn, Option.some.inj e2]

/-- The backend macros read off the CXXFLAGS of each unit. -/
theorem backendMacrosOf_value (ctxt : Context) (u : BindingUnit) :
    backendMacrosOf ctxt u = some [unitMacro u] := by
  cases u <;> rfl

/-! ## Selection -/

/-- C2, counterexample: targeting windows with cgo disabled and the Win32 tag
as the only backend tag, the Win32 unit passes its build constraints but is
ignored as a cgo file, so the build includes no binding unit and the import
is rejected for lack of Go files. -/
theorem win32_unit_ignored_without_cgo :
    (⟨"amd64", "windows", "gc", false, ["webview.backend.win32_edge"], [], []⟩ : Context).GOOS ∈
      platformFamily .backend_win32_edge ∧
    matchTag ⟨"amd64", "windows", "gc", false, ["webview.backend.win32_edge"], [], []⟩
      (backendTag .backend_win32_edge) = true ∧
    (∀ v, v ≠ .backend_win32_edge →
      matchTag ⟨"amd64", "windows", "gc", false, ["webview.backend.win32_edge"], [], []⟩
        (backendTag v) = false) ∧
    importDir ⟨"amd64", "windows", "gc", false, ["webview.backend.win32_edge"], [], []⟩ =
      .NoGoError := by
  decide

/-- C2, amended: for each supported pair of a target OS and a backend variant,
in a build for that OS in which the tag of that variant is the only satisfied
backend tag, exactly one binding unit passes its build constraints, the unit
of that variant; with cgo enabled the build includes exactly that unit, and
with cgo disabled it includes no unit and the import is rejected. -/
theorem supported_pair_selects_its_unit (ctxt : Context) (u : BindingUnit)
    (hos : ctxt.GOOS ∈ platformFamily u)
    (htag : matchTag ctxt (backendTag u) = true)
    (hothers : ∀ v, v ≠ u → matchTag ctxt (backendTag v) = false) :
    selectedUnits ctxt = [u] ∧ (∀ v, matchFile ctxt v = true ↔ v = u) ∧
    (ctxt.CgoEnabled = true → importDir ctxt = .ok [u]) ∧
    (ctxt.CgoEnabled = false → importDir ctxt = .NoGoError) := by
  have h := selectedUnits_of_only_tag ctxt u hos htag hothers
  refine ⟨h, fun v => ?_, fun hcgo => ?_, fun hcgo => ?_⟩
  · have hm : v ∈ selectedUnits ctxt ↔ matchFile ctxt v = true := by
      unfold selectedUnits
      rw [List.mem_filter]
      exact ⟨fun x => x.2, fun x => ⟨by cases v <;> decide, x⟩⟩
    rw [← hm, h, List.mem_singleton]
  · simp [importDir, hcgo, h]
  · simp [importDir, hcgo]

theorem supported_pair_selects_its_unit_witness :
    (buildFor "openbsd" ["webview.backend.gtk4_webkitgtk600"]).GOOS ∈
        platformFamily .backend_gtk4_webkit600 ∧
    selectedUnits (buildFor "openbsd" ["webview.backend.gtk4_webkitgtk600"]) =
        [.backend_gtk4_webkit600] ∧
    importDir (buildFor "openbsd" ["webview.backend.gtk4_webkitgtk600"]) =
        .ok [.backend_gtk4_webkit600] :=
  ⟨by decide,
   (supported_pair_selects_its_unit (buildFor "openbsd" ["webview.backend.gtk4_webkitgtk600"])
     .backend_gtk4_webkit600 (by decide) (by decide) (by decide)).1,
   (supported_pair_selects_its_unit (buildFor "openbsd" ["webview.backend.gtk4_webkitgtk600"])
     .backend_gtk4_webkit600 (by decide) (by decide) (by decide)).2.2.1 (by decide)⟩

/-- C3, counterexample: targeting android with the GTK3 tag given, the GTK3
unit passes its build constraints (android satisfies the OS name `linux`),
although the target OS is not in the GTK platform family. -/
theorem gtk3_unit_selected_on_android :
    matchFile (buildFor "android" ["webview.backend.gtk3_webkitgtk401"])
        .backend_gtk3_webkit401 = true ∧
    (buildFor "android" ["webview.backend.gtk3_webkitgtk401"]).GOOS ∉
        platformFamily .backend_gtk3_webkit401 := by
  decide

/-- C3, amended: a binding unit is selected only if an OS name of its platform
family is a satisfied tag.  When the OS names are satisfied by the target OS
only, a unit is selected only if the target OS belongs to its family, and a
linux build in which no backend tag other than the Win32 one is satisfied
selects no unit and passes no linker flag. -/
theorem platform_gate (ctxt : Context) :
    (∀ u, matchFile ctxt u = true → ∃ os ∈ platformFamily u, matchTag ctxt os = true) ∧
    (osTermsFromTarget ctxt = true →
      (∀ u, matchFile ctxt u = true → ctxt.GOOS ∈ platformFamily u) ∧
      (ctxt.GOOS = "linux" →
        (∀ v, v ≠ .backend_win32_edge → matchTag ctxt (backendTag v) = false) →
        selectedUnits ctxt = [] ∧ packageFlags ctxt "LDFLAGS" = some [])) := by
  refine ⟨?_, fun hos => ⟨GOOS_mem_family ctxt hos, ?_⟩⟩
  · intro u hu
    rw [matchFile_eq, Bool.and_eq_true] at hu
    exact List.any_eq_true.mp hu.1
  · intro hlinux hothers
    have hw : matchFile ctxt .backend_win32_edge = false := by
      cases hm : matchFile ctxt .backend_win32_edge
      · rfl
      · have := GOOS_mem_family ctxt hos _ hm
        rw [hlinux] at this
        exact absurd this (by decide)
    have hv : ∀ v, v ≠ .backend_win32_edge → matchFile ctxt v = false := fun v hne =>
      matchFile_false_of_tag ctxt v (hothers v hne)
    have hnil : selectedUnits ctxt = [] := by
      unfold selectedUnits
      rw [filter_all, hw, hv _ (by decide), hv _ (by decide), hv _ (by decide)]
      rfl
    exact ⟨hnil, packageFlags_of_nil ctxt _ hnil⟩

theorem platform_gate_witness :
    (∃ os ∈ platformFamily .backend_win32_edge,
      matchTag (buildFor "windows" ["webview.backend.win32_edge"]) os = true) ∧
    (buildFor "windows" ["webview.backend.win32_edge"]).GOOS ∈
      platformFamily .backend_win32_edge ∧
    osTermsFromTarget (buildFor "linux" ["webview.backend.win32_edge"]) = true ∧
    selectedUnits (buildFor "linux" ["webview.backend.win32_edge"]) = [] ∧
    packageFlags (buildFor "linux" ["webview.backend.win32_edge"]) "LDFLAGS" = some [] :=
  ⟨(platform_gate (buildFor "windows" ["webview.backend.win32_edge"])).1 _ (by decide),
   ((platform_gate (buildFor "windows" ["webview.backend.win32_edge"])).2 (by decide)).1 _
     (by decide),
   by decide,
   ((platform_gate (buildFor "linux" ["webview.backend.win32_edge"])).2 (by decide)).2
     (by decide) (by decide)⟩

/-- C4: for every target OS, when none of the four backend tags is satisfied,
none of the four binding units is selected, whatever other tags are set, and
importing the package is rejected for lack of Go files. -/
theorem missing_selection (ctxt : Context)
    (h : ∀ u, matchTag ctxt (backendTag u) = false) :
    (∀ u, matchFile ctxt u = false) ∧ selectedUnits ctxt = [] ∧
      importDir ctxt = .NoGoError := by
  have hv : ∀ u, matchFile ctxt u = false := fun u => matchFile_false_of_tag ctxt u (h u)
  have hnil : selectedUnits ctxt = [] := by
    unfold selectedUnits
    rw [filter_all, hv, hv, hv, hv]
    rfl
  refine ⟨hv, hnil, ?_⟩
  simp [importDir, hnil]

theorem missing_selection_witness :
    (∀ u, matchTag (buildFor "windows" ["netgo", "linux", "darwin"]) (backendTag u) = false) ∧
    selectedUnits (buildFor "windows" ["netgo", "linux", "darwin"]) = [] ∧
    importDir (buildFor "windows" ["netgo", "linux", "darwin"]) = .NoGoError :=
  ⟨by decide, (missing_selection _ (by decide)).2⟩

/-! ## Compiler and linker settings -/

/-- C5: every binding unit includes exactly one header, `webview.h`, and has
the include path of the bundled library in both its CFLAGS and its CXXFLAGS;
so in every build each selected unit exposes that same header. -/
theorem uniform_header (ctxt : Context) (u : BindingUnit) :
    cgoIncludes u = ["\"webview.h\""] ∧
    (∃ c cxx, cgoFlags ctxt u "CFLAGS" = some c ∧ cgoFlags ctxt u "CXXFLAGS" = some cxx ∧
      webviewIncludeFlag ∈ c ∧ webviewIncludeFlag ∈ cxx) ∧
    (selectedUnits ctxt).map cgoIncludes =
      (selectedUnits ctxt).map fun _ => ["\"webview.h\""] := by
  refine ⟨cgoIncludes_eq u, ?_, List.map_congr_left fun v _ => cgoIncludes_eq v⟩
  cases u
  · exact ⟨_, _, rfl, rfl, by decide, by decide⟩
  · exact ⟨_, _, rfl, rfl, by decide, by decide⟩
  · exact ⟨_, _, rfl, rfl, by decide, by decide⟩
  · exact ⟨_, _, rfl, rfl, by decide, by decide⟩

/-- C6: the LDFLAGS of the Cocoa unit are exactly the WebKit framework and the
dynamic loader; those of each GTK unit exactly the dynamic loader; those of
the Win32 unit `-static` followed by exactly the six Windows system
libraries, without the dynamic loader. -/
theorem linker_requirements (ctxt : Context) :
    cgoFlags ctxt .backend_cocoa_webkit "LDFLAGS" = some ["-framework", "WebKit", "-ldl"] ∧
    cgoFlags ctxt .backend_gtk3_webkit401 "LDFLAGS" = some ["-ldl"] ∧
    cgoFlags ctxt .backend_gtk4_webkit600 "LDFLAGS" = some ["-ldl"] ∧
    cgoFlags ctxt .backend_win32_edge "LDFLAGS" =
      some ["-static", "-ladvapi32", "-lole32", "-lshell32", "-lshlwapi", "-luser32",
        "-lversion"] ∧
    (∃ ld, cgoFlags ctxt .backend_win32_edge "LDFLAGS" = some ld ∧
      ld = "-static" :: windowsSystemLibs ∧ "-ldl" ∉ ld) :=
  ⟨rfl, rfl, rfl, rfl, _, rfl, rfl, by decide⟩

/-- C7: the GTK3 unit asks pkg-config for exactly `gtk+-3.0` and
`webkit2gtk-4.1`, the GTK4 unit for exactly `gtk4` and `webkitgtk-6.0`, and the
Cocoa and Win32 units for nothing. -/
theorem package_discovery (ctxt : Context) :
    cgoFlags ctxt .backend_gtk3_webkit401 "pkg-config" = some ["gtk+-3.0", "webkit2gtk-4.1"] ∧
    cgoFlags ctxt .backend_gtk4_webkit600 "pkg-config" = some ["gtk4", "webkitgtk-6.0"] ∧
    cgoFlags ctxt .backend_cocoa_webkit "pkg-config" = some [] ∧
    cgoFlags ctxt .backend_win32_edge "pkg-config" = some [] :=
  ⟨rfl, rfl, rfl, rfl⟩

/-- C8, counterexample: targeting linux with the tags `windows` and
`webview.backend.win32_edge` given, the Win32 unit is selected and the
package links the Windows system libraries on a target that is not windows. -/
theorem windows_libs_on_linux :
    (buildFor "linux" ["windows", "webview.backend.win32_edge"]).GOOS ≠ "windows" ∧
    selectedUnits (buildFor "linux" ["windows", "webview.backend.win32_edge"]) =
      [.backend_win32_edge] ∧
    packageFlags (buildFor "linux" ["windows", "webview.backend.win32_edge"]) "LDFLAGS" =
      some ("-static" :: windowsSystemLibs) := by
  decide

/-- C8, amended: for a target OS of the GTK family with the GTK3 tag as the
only satisfied backend tag, the package asks pkg-config for `gtk+-3.0` and
`webkit2gtk-4.1`, links the dynamic loader and links no Windows system
library; and in every build in which the tag `windows` is not satisfied, no
selected unit contributes a Windows system library. -/
theorem gtk3_scenario (ctxt : Context) :
    (ctxt.GOOS ∈ ["linux", "openbsd", "freebsd", "netbsd"] →
      matchTag ctxt "webview.backend.gtk3_webkitgtk401" = true →
      (∀ v, v ≠ .backend_gtk3_webkit401 → matchTag ctxt (backendTag v) = false) →
      ∃ pk ld, packageFlags ctxt "pkg-config" = some pk ∧
        packageFlags ctxt "LDFLAGS" = some ld ∧
        "gtk+-3.0" ∈ pk ∧ "webkit2gtk-4.1" ∈ pk ∧ "-ldl" ∈ ld ∧
        ∀ w ∈ windowsSystemLibs, w ∉ ld) ∧
    (matchTag ctxt "windows" = false →
      ∃ ld, packageFlags ctxt "LDFLAGS" = some ld ∧ ∀ w ∈ windowsSystemLibs, w ∉ ld) := by
  constructor
  · intro hos htag hothers
    have hsel := selectedUnits_of_only_tag ctxt .backend_gtk3_webkit401 hos htag hothers
    refine ⟨["gtk+-3.0", "webkit2gtk-4.1"], ["-ldl"], ?_, ?_, by decide, by decide,
      by decide, by decide⟩
    · rw [packageFlags_of_singleton ctxt _ _ hsel]
      rfl
    · rw [packageFlags_of_singleton ctxt _ _ hsel]
      rfl
  · intro hwin
    rw [packageFlags, selectedUnits_eq, hwin]
    cases (matchTag ctxt "darwin" && matchTag ctxt "webview.backend.cocoa_webkit") <;>
    cases ((matchTag ctxt "linux" || (matchTag ctxt "openbsd" ||
        (matchTag ctxt "freebsd" || matchTag ctxt "netbsd")))
        && matchTag ctxt "webview.backend.gtk3_webkitgtk401") <;>
    cases ((matchTag ctxt "linux" || (matchTag ctxt "openbsd" ||
        (matchTag ctxt "freebsd" || matchTag ctxt "netbsd")))
        && matchTag ctxt "webview.backend.gtk4_webkitgtk600") <;>
    exact ⟨_, rfl, by decide⟩

theorem gtk3_scenario_witness :
    (∃ pk ld,
      packageFlags (buildFor "linux" ["webview.backend.gtk3_webkitgtk401"]) "pkg-config" =
        some pk ∧
      packageFlags (buildFor "linux" ["webview.backend.gtk3_webkitgtk401"]) "LDFLAGS" =
        some ld ∧
      "gtk+-3.0" ∈ pk ∧ "webkit2gtk-4.1" ∈ pk ∧ "-ldl" ∈ ld ∧
      ∀ w ∈ windowsSystemLibs, w ∉ ld) ∧
    (∃ ld,
      packageFlags (buildFor "linux" ["webview.backend.gtk3_webkitgtk401"]) "LDFLAGS" =
        some ld ∧
      ∀ w ∈ windowsSystemLibs, w ∉ ld) :=
  ⟨(gtk3_scenario (buildFor "linux" ["webview.backend.gtk3_webkitgtk401"])).1
      (by decide) (by decide) (by decide),
   (gtk3_scenario (buildFor "linux" ["webview.backend.gtk3_webkitgtk401"])).2 (by decide)⟩

/-! ## Units selected together -/

/-- C9, counterexample: targeting linux with the tags `darwin`,
`webview.backend.cocoa_webkit` and `webview.backend.gtk3_webkitgtk401` given,
the Cocoa unit and the GTK3 unit are selected together, units of two
platform families, while the GTK4 tag is not satisfied. -/
theorem cocoa_and_gtk3_selected_together :
    selectedUnits (buildFor "linux"
        ["darwin", "webview.backend.cocoa_webkit", "webview.backend.gtk3_webkitgtk401"]) =
      [.backend_cocoa_webkit, .backend_gtk3_webkit401] ∧
    matchTag (buildFor "linux"
        ["darwin", "webview.backend.cocoa_webkit", "webview.backend.gtk3_webkitgtk401"])
      "webview.backend.gtk4_webkitgtk600" = false := by
  decide

/-- C9, amended: when the OS names are satisfied by the target OS only, two
distinct binding units are selected together only as the GTK pair: the target
OS is one of linux, openbsd, freebsd, netbsd, both GTK tags are satisfied,
the two units are the GTK3 and the GTK4 unit (of one platform family), they
are all that is selected, and pkg-config is asked for both `gtk+-3.0` and
`gtk4`. -/
theorem only_gtk_pair_selected_together (ctxt : Context)
    (hos : osTermsFromTarget ctxt = true) (u v : BindingUnit) (huv : u ≠ v)
    (hu : matchFile ctxt u = true) (hv : matchFile ctxt v = true) :
    ctxt.GOOS ∈ ["linux", "openbsd", "freebsd", "netbsd"] ∧
    matchTag ctxt "webview.backend.gtk3_webkitgtk401" = true ∧
    matchTag ctxt "webview.backend.gtk4_webkitgtk600" = true ∧
    ((u = .backend_gtk3_webkit401 ∧ v = .backend_gtk4_webkit600) ∨
      (u = .backend_gtk4_webkit600 ∧ v = .backend_gtk3_webkit401)) ∧
    platformFamily u = platformFamily v ∧
    selectedUnits ctxt = [.backend_gtk3_webkit401, .backend_gtk4_webkit600] ∧
    packageFlags ctxt "pkg-config" =
      some ["gtk+-3.0", "webkit2gtk-4.1", "gtk4", "webkitgtk-6.0"] :=
  two_selected_are_gtk_pair ctxt hos u v huv hu hv

theorem only_gtk_pair_selected_together_witness :
    osTermsFromTarget (buildFor "freebsd"
      ["webview.backend.gtk3_webkitgtk401", "webview.backend.gtk4_webkitgtk600"]) = true ∧
    selectedUnits (buildFor "freebsd"
      ["webview.backend.gtk3_webkitgtk401", "webview.backend.gtk4_webkitgtk600"]) =
      [.backend_gtk3_webkit401, .backend_gtk4_webkit600] :=
  ⟨by decide,
   (only_gtk_pair_selected_together
      (buildFor "freebsd"
        ["webview.backend.gtk3_webkitgtk401", "webview.backend.gtk4_webkitgtk600"])
      (by decide) .backend_gtk3_webkit401 .backend_gtk4_webkit600 (by decide) (by decide)
      (by decide)).2.2.2.2.2.1⟩

/-- C10, counterexample: targeting darwin with the tags `windows`,
`webview.backend.cocoa_webkit` and `webview.backend.win32_edge` given, the
Cocoa unit and the Win32 unit are both selected and define different backend
macros. -/
theorem two_backend_macros_in_one_build :
    matchFile (buildFor "darwin"
        ["windows", "webview.backend.cocoa_webkit", "webview.backend.win32_edge"])
      .backend_cocoa_webkit = true ∧
    matchFile (buildFor "darwin"
        ["windows", "webview.backend.cocoa_webkit", "webview.backend.win32_edge"])
      .backend_win32_edge = true ∧
    backendMacrosOf (buildFor "darwin"
        ["windows", "webview.backend.cocoa_webkit", "webview.backend.win32_edge"])
      .backend_cocoa_webkit = some ["WEBVIEW_COCOA"] ∧
    backendMacrosOf (buildFor "darwin"
        ["windows", "webview.backend.cocoa_webkit", "webview.backend.win32_edge"])
      .backend_win32_edge = some ["WEBVIEW_EDGE"] := by
  decide

/-- C10, amended: the CXXFLAGS of every binding unit define `WEBVIEW_STATIC`
and exactly one backend macro, the one of the OS names of its platform gate;
two units define the same backend macro exactly when they are of the same
platform family, so in every build in which the OS gates of different
platform families are exclusive, all selected units define the same single
backend macro. -/
theorem backend_macro_agreement (ctxt : Context) :
    (∀ u, ∃ cxx m, cgoFlags ctxt u "CXXFLAGS" = some cxx ∧
      "WEBVIEW_STATIC" ∈ definedMacros cxx ∧
      backendMacrosOf ctxt u = some [m] ∧
      ∀ os ∈ platformFamily u, macroOfOS os = some m) ∧
    (∀ u v, backendMacrosOf ctxt u = backendMacrosOf ctxt v ↔
      platformFamily u = platformFamily v) ∧
    (gatesExclusive ctxt = true →
      ∀ u v, matchFile ctxt u = true → matchFile ctxt v = true →
        backendMacrosOf ctxt u = backendMacrosOf ctxt v) := by
  refine ⟨?_, ?_, ?_⟩
  · intro u
    cases u
    · exact ⟨_, "WEBVIEW_COCOA", rfl, by decide, rfl, by decide⟩
    · exact ⟨_, "WEBVIEW_GTK", rfl, by decide, rfl, by decide⟩
    · exact ⟨_, "WEBVIEW_GTK", rfl, by decide, rfl, by decide⟩
    · exact ⟨_, "WEBVIEW_EDGE", rfl, by decide, rfl, by decide⟩
  · intro u v
    rw [backendMacrosOf_value ctxt u, backendMacrosOf_value ctxt v]
    cases u <;> cases v <;> decide
  · intro hex u v hu hv
    exact backendMacrosOf_eq_of_family ctxt u v (gate_and_tag_of_matchFile ctxt u hu).1
      (family_eq_of_exclusive ctxt hex u v hu hv)

theorem backend_macro_agreement_witness :
    gatesExclusive (buildFor "android"
      ["webview.backend.gtk3_webkitgtk401", "webview.backend.gtk4_webkitgtk600"]) = true ∧
    osTermsFromTarget (buildFor "android"
      ["webview.backend.gtk3_webkitgtk401", "webview.backend.gtk4_webkitgtk600"]) = false ∧
    backendMacrosOf (buildFor "android"
        ["webview.backend.gtk3_webkitgtk401", "webview.backend.gtk4_webkitgtk600"])
      .backend_gtk3_webkit401 =
    backendMacrosOf (buildFor "android"
        ["webview.backend.gtk3_webkitgtk401", "webview.backend.gtk4_webkitgtk600"])
      .backend_gtk4_webkit600 :=
  ⟨by decide, by decide,
   (backend_macro_agreement _).2.2 (by decide) .backend_gtk3_webkit401 .backend_gtk4_webkit600
      (by decide) (by decide)⟩

end WebviewGo
